import Mathlib

/-!
Shallow embedding of the scope-go-agent test lifecycle engine
(src/instrumentation/testing/testing.go) and of the session configuration
model (src/runner/session.go), together with theorems settling the
specification claims about them.
-/

/-- Retry/exit policy, `runnerRules` in src/runner/session.go. -/
structure RunnerRules where
  failRetries : Int
  passRetries : Int
  errorRetries : Int
  exitOnError : Bool
deriving DecidableEq, Repr

/-- Test descriptor, `testItem` in src/runner/session.go.  The Go field
`Rules *runnerRules` is a nilable pointer, embedded as an `Option`. -/
structure TestItem where
  fqn : String
  skip : Bool
  retryOnFailure : Bool
  includeStatusInBuildResults : Bool
  rules : Option RunnerRules
deriving DecidableEq, Repr

/-- Session configuration, `testRunnerSession` in src/runner/session.go. -/
structure TestRunnerSession where
  tests : List TestItem
  rules : RunnerRules
deriving DecidableEq, Repr

/-- The dummy session loader `(*dummySessionLoader).LoadSessionConfiguration`
from src/runner/session.go, lines 30-83.  Descriptors whose Go literal omits
the `Rules` field have the zero value `nil`, embedded as `none`. -/
def LoadSessionConfiguration (repository : String) (branch : String)
    (commit : String) (serviceName : String) : TestRunnerSession :=
  { tests :=
      [ { fqn := "go.undefinedlabs.com/scopeagent/agent.TestFirstTest"
          skip := false
          retryOnFailure := true
          includeStatusInBuildResults := true
          rules := some { failRetries := 0, passRetries := 0, errorRetries := 0, exitOnError := false } }
      , { fqn := "go.undefinedlabs.com/scopeagent/agent.TestDsnParser"
          skip := false
          retryOnFailure := true
          includeStatusInBuildResults := true
          rules := none }
      , { fqn := "go.undefinedlabs.com/scopeagent/agent.TestSkipped"
          skip := true
          retryOnFailure := true
          includeStatusInBuildResults := true
          rules := none }
      , { fqn := "go.undefinedlabs.com/scopeagent/agent.TestFlaky"
          skip := false
          retryOnFailure := true
          includeStatusInBuildResults := true
          rules := none }
      , { fqn := "go.undefinedlabs.com/scopeagent/agent.TestFail"
          skip := false
          retryOnFailure := true
          includeStatusInBuildResults := true
          rules := some { failRetries := 4, passRetries := 0, errorRetries := 0, exitOnError := false } } ]
    rules := { failRetries := 3, passRetries := 1, errorRetries := 1, exitOnError := true } }

/-- Modelled from the spec: the rule-resolution order of spec section 4.1.
The code consuming a `testRunnerSession` (the retry loop in the runner
package) is not under src/; only the data model and the dummy loader are.
Resolution per the spec: a test identifier absent from the descriptor list
gets the global rules; a present descriptor with a `ruleOverride` uses it in
place of the global rules, otherwise falls back to the global rules; there
is no field-by-field merging.  Lookup is by exact string match on `fqn`. -/
def resolveRules (s : TestRunnerSession) (fqn : String) : RunnerRules :=
  match s.tests.find? (fun i => i.fqn == fqn) with
  | some item =>
    match item.rules with
    | some r => r
    | none => s.rules
  | none => s.rules

/-- C10: the dummy session loader is a constant function of its four
arguments: every combination of repository, branch, commit and serviceName
yields the identical session configuration. -/
theorem loadSessionConfiguration_constant
    (repository branch commit serviceName : String)
    (repository2 branch2 commit2 serviceName2 : String) :
    LoadSessionConfiguration repository branch commit serviceName =
      LoadSessionConfiguration repository2 branch2 commit2 serviceName2 := rfl

/-- C3: rule resolution never merges a per-test override with the global
rules field-by-field: whenever the descriptor found for an identifier
carries a rule override, resolution yields exactly that override,
independently of the session's global rules. -/
theorem resolveRules_override_replaces (s : TestRunnerSession) (fqn : String)
    (item : TestItem) (r : RunnerRules)
    (hfind : s.tests.find? (fun i => i.fqn == fqn) = some item)
    (hr : item.rules = some r) :
    resolveRules s fqn = r := by
  simp only [resolveRules, hfind, hr]

/-- Concrete descriptor used by the C3 witness: the claim's "pkg.TestFail"
with failRetries 4 and all other override fields at their Go zero values. -/
def pkgTestFailItem : TestItem :=
  { fqn := "pkg.TestFail", skip := false, retryOnFailure := true
    includeStatusInBuildResults := true
    rules := some { failRetries := 4, passRetries := 0, errorRetries := 0, exitOnError := false } }

/-- Concrete session used by the C3 witness: global rules 3/1/1/true plus the
overridden "pkg.TestFail" descriptor. -/
def pkgSession : TestRunnerSession :=
  { tests := [pkgTestFailItem]
    rules := { failRetries := 3, passRetries := 1, errorRetries := 1, exitOnError := true } }

/-- Witness for C3, the exact scenario of the claim: the session with global
rules 3/1/1/true and "pkg.TestFail" overridden with failRetries 4 resolves
"pkg.TestFail" to exactly 4/0/0/false, not a merge with the global rules. -/
theorem resolveRules_override_replaces_witness :
    pkgSession.tests.find? (fun i => i.fqn == "pkg.TestFail") = some pkgTestFailItem ∧
    resolveRules pkgSession "pkg.TestFail" =
      { failRetries := 4, passRetries := 0, errorRetries := 0, exitOnError := false } :=
  ⟨by decide,
   resolveRules_override_replaces pkgSession "pkg.TestFail" pkgTestFailItem
     { failRetries := 4, passRetries := 0, errorRetries := 0, exitOnError := false }
     (by decide) rfl⟩

/-! ## The lifecycle tracker data model

Embedding of src/instrumentation/testing/testing.go.  A `*testing.T` handle
is an opaque identity used as a map key; it is embedded as a `Nat`.  Trace
spans are embedded by value: a span still owned by a unit sits in its
`Test.span` field, and a span on which `Finish`/`FinishWithOptions` has been
called is returned by the operation that finished it (the "emitted" span),
after which the tracker no longer mutates it. -/

/-- Value of a span tag.  Status tags are strings, the `error` tag is a
boolean, and the coverage tag carries the coverage payload returned by the
coverage subsystem (embedded as an integer token). -/
inductive TagValue where
  | str (s : String)
  | bool (b : Bool)
  | cov (n : Int)
deriving DecidableEq, Repr

/-- Options passed to `FinishWithOptions`: the finish timestamp and the log
records drained from the logging collaborator. -/
structure FinishOptions where
  finishTime : Int
  logRecords : List String
deriving DecidableEq, Repr

/-- A trace span.  `sid` is the identity the tracer assigns at
`StartSpan` time; `events` are the structured exception events written by
`errors.WriteExceptionEvent` (each recorded by its cause); `finished` is
`some options` once the span has been finished. -/
structure Span where
  sid : Nat
  name : String
  tags : List (String × TagValue)
  baggage : List (String × String)
  events : List String
  startTime : Option Int
  finished : Option FinishOptions
deriving DecidableEq, Repr

/-- Sets a tag, overwriting any previous value of the same key
(map semantics of `opentracing.Span.SetTag`; `tracer.Span.UnsafeSetTag`
sets the same mapping). -/
def Span.setTag (sp : Span) (k : String) (v : TagValue) : Span :=
  { sp with tags := (k, v) :: sp.tags.filter (fun p => p.1 != k) }

/-- Reads a tag back (map semantics). -/
def Span.lookupTag (sp : Span) (k : String) : Option TagValue :=
  (sp.tags.find? (fun p => p.1 == k)).map (fun p => p.2)

/-- Sets a baggage item (`SetBaggageItem`). -/
def Span.setBaggage (sp : Span) (k v : String) : Span :=
  { sp with baggage := (k, v) :: sp.baggage.filter (fun p => p.1 != k) }

/-- Records a structured exception event on the span
(`errors.WriteExceptionEvent`, keyed by its cause; the skip-frames depth
argument only shapes the stack trace and is not modelled). -/
def Span.addEvent (sp : Span) (e : String) : Span :=
  { sp with events := sp.events ++ [e] }

/-- Finishes the span with explicit options (`FinishWithOptions`). -/
def Span.finishWith (sp : Span) (o : FinishOptions) : Span :=
  { sp with finished := some o }

/-- Overrides the span's exact start time (`tracer.Span.SetStart`). -/
def Span.setStart (sp : Span) (t0 : Int) : Span :=
  { sp with startTime := some t0 }

/-- An ambient Go context value: `context.Background()`, `context.TODO()`,
or a context carrying a span (what `StartSpanFromContextWithTracer`
returns). -/
inductive GoContext where
  | background
  | todo
  | withSpan (parent : GoContext) (sid : Nat)
deriving DecidableEq, Repr

/-- The `Test` struct of testing.go: the tracked-test-unit record.  `ctx`
and `span` are nilable in Go, hence `Option`.  `t` is the host framework's
test handle. -/
structure Test where
  t : Nat
  ctx : Option GoContext
  span : Option Span
  codePC : Nat
deriving DecidableEq, Repr

/-- The host framework's view of one `*testing.T`: its name, the
failed/skipped flags, the declared-parallel flag read by
`reflection.GetIsParallel`, and the start time read by
`reflection.GetTestStartTime` (`none` embeds the error case). -/
structure HostTest where
  name : String
  failed : Bool
  skipped : Bool
  isParallel : Bool
  startTime : Option Int
deriving DecidableEq, Repr

/-- Read-only process environment: source introspection for a program
counter (`instrumentation.GetPackageAndName` /
`GetPackageAndNameAndBoundaries`, `""` boundaries when unresolved), the
process coverage mode (`testing.CoverMode()`), and the current clock used
for `time.Now()`. -/
structure Env where
  pcPackage : Nat → String
  pcName : Nat → String
  pcBoundaries : Nat → String
  coverMode : String
  now : Int

/-- The tracker's mutable world.  `testMap` and `autoInstrumented` are the
two package-level maps of testing.go (association list / key set keyed by
host handle).  `cachedTests` is modelled from the spec: the set of
fully-qualified test names the session configuration marks `skip=true`,
served by `config.GetCachedTestsMap` (that package is outside src/).
`covCounters` and `covSnapshot` embed the coverage subsystem of spec
section 4.2 (the coverage package is outside src/): process-wide counters
plus the one snapshot saved by `StartCoverage`.  `parallel` is modelled
from the spec: the package variable counting parallel-active top-level
tests, maintained outside this file.  `logBuffer` is the pending-log buffer
of the logging collaborator, and `diagLog` collects the diagnostics written
through `instrumentation.Logger().Printf`. -/
structure EngineState where
  testMap : List (Nat × Test)
  autoInstrumented : List Nat
  hosts : Nat → HostTest
  cachedTests : List String
  covCounters : Int
  covSnapshot : Option Int
  logBuffer : List String
  diagLog : List String
  nextSpanId : Nat
  parallel : Nat

/-- Pointwise update of the host table. -/
def updHost (hs : Nat → HostTest) (k : Nat) (v : HostTest) : Nat → HostTest :=
  fun k2 => if k2 = k then v else hs k2

/-- Appends one diagnostic line (`instrumentation.Logger().Printf`). -/
def logDiag (st : EngineState) (msg : String) : EngineState :=
  { st with diagLog := msg :: st.diagLog }

/-- Marks the host test skipped, `reflection.SkipAndFinishTest`. -/
def skipAndFinishTest (st : EngineState) (h : Nat) : EngineState :=
  { st with hosts := updHost st.hosts h { st.hosts h with skipped := true } }

/-- Marks the host test skipped, `(*testing.T).SkipNow`. -/
def skipNow (st : EngineState) (h : Nat) : EngineState :=
  { st with hosts := updHost st.hosts h { st.hosts h with skipped := true } }

/-- Marks the host test failed, `(*testing.T).Fail`. -/
def failHost (st : EngineState) (h : Nat) : EngineState :=
  { st with hosts := updHost st.hosts h { st.hosts h with failed := true } }

/-- Map lookup in the live set. -/
def lookupTest (m : List (Nat × Test)) (h : Nat) : Option Test :=
  (m.find? (fun q => q.1 == h)).map (fun q => q.2)

/-- Map write in the live set: Go mutates the struct the map points to, so
the entry for the handle is replaced by the new value. -/
def setTest (st : EngineState) (h : Nat) (t : Test) : EngineState :=
  { st with testMap := (h, t) :: st.testMap.filter (fun q => q.1 != h) }

/-- Saves the counter snapshot, `coverage.StartCoverage` (modelled from the
spec, section 4.2: start always re-arms the one saved snapshot). -/
def StartCoverage (st : EngineState) : EngineState :=
  { st with covSnapshot := some st.covCounters }

/-- Returns the delta since the last start, `coverage.EndCoverage`
(modelled from the spec, section 4.2): `none` when no bracket is armed. -/
def EndCoverage (st : EngineState) : Option Int × EngineState :=
  match st.covSnapshot with
  | some s => (some (st.covCounters - s), { st with covSnapshot := none })
  | none => (none, st)

/-- Reverts the counters to the pre-start snapshot without emitting a
delta, `coverage.RestoreCoverageCounters` (modelled from the spec,
section 4.2). -/
def RestoreCoverageCounters (st : EngineState) : EngineState :=
  match st.covSnapshot with
  | some s => { st with covCounters := s, covSnapshot := none }
  | none => st

/-- Opens a new span with the given name, tags and ambient context
(`opentracing.StartSpanFromContextWithTracer`): the tracer hands out a
fresh span identity and a child context carrying it. -/
def startSpan (st : EngineState) (name : String) (tgs : List (String × TagValue))
    (ctx : GoContext) : Span × GoContext × EngineState :=
  (⟨st.nextSpanId, name, tgs, [], [], none, none⟩,
   .withSpan ctx st.nextSpanId,
   { st with nextSpanId := st.nextSpanId + 1 })

/-- The public `Option` type of the package: `WithContext` is its only
constructor in the source. -/
inductive TestOption where
  | withContext (ctx : GoContext)
deriving DecidableEq, Repr

/-- Applies one start option to a unit. -/
def applyOption : TestOption → Test → Test
  | .withContext c, test => { test with ctx := some c }

/-- Applies a list of start options in order. -/
def applyOpts (opts : List TestOption) (test : Test) : Test :=
  opts.foldl (fun acc o => applyOption o acc) test

/-! ## The lifecycle tracker operations -/

/-- Test status tag value `tags.TestStatus_CACHE` (the tags package is an
external collaborator; the status values are the ones the spec names). -/
def TestStatus_CACHE : String := "CACHE"

/-- Test status tag value `tags.TestStatus_FAIL`. -/
def TestStatus_FAIL : String := "FAIL"

/-- Test status tag value `tags.TestStatus_SKIP`. -/
def TestStatus_SKIP : String := "SKIP"

/-- Test status tag value `tags.TestStatus_PASS`. -/
def TestStatus_PASS : String := "PASS"

/-- Key of the coverage tag, `tags.Coverage` (external collaborator). -/
def tagsCoverage : String := "test.coverage"

/-- Modelled from the spec: `runner.GetOriginalTestName` (the runner file
holding it is not under src/) strips the sub-test suffix
`{test_func}/{sub_test}` appended by the host framework, keeping the
portion before the first separator. -/
def GetOriginalTestName (name : String) : String :=
  (name.splitOn "/").headD name

/-- The fully-qualified test name `pkgName.testName` computed by
`isTestCached` from the caller program counter. -/
def fqnOf (env : Env) (pc : Nat) : String :=
  env.pcPackage pc ++ "." ++ env.pcName pc

/-- Translation of `isTestCached` (testing.go, lines 327-339): looks the
fully-qualified name up in the cached-tests map; on a hit it logs, marks
the host test skipped via `reflection.SkipAndFinishTest` and reports true,
otherwise it logs and reports false. -/
def isTestCached (env : Env) (st : EngineState) (h : Nat) (pc : Nat) :
    Bool × EngineState :=
  let fqn := fqnOf env pc
  if fqn ∈ st.cachedTests then
    (true, skipAndFinishTest (logDiag st ("Test " ++ fqn ++ " is cached.")) h)
  else
    (false, logDiag st ("Test " ++ fqn ++ " is not cached."))

/-- Translation of `getOrCreateTest` (testing.go, lines 261-274): returns
the tracked unit for the handle when present, otherwise inserts and
returns a zero-value unit, reporting whether one already existed. -/
def getOrCreateTest (st : EngineState) (h : Nat) : Test × Bool × EngineState :=
  match lookupTest st.testMap h with
  | some test => (test, true, st)
  | none =>
    let test : Test := { t := h, ctx := none, span := none, codePC := 0 }
    (test, false, { st with testMap := (h, test) :: st.testMap })

/-- Translation of `removeTest` (testing.go, lines 276-281): deletes the
handle's entry from the live set. -/
def removeTest (st : EngineState) (h : Nat) : EngineState :=
  { st with testMap := st.testMap.filter (fun q => q.1 != h) }

/-- Translation of `GetTest` (testing.go, lines 283-295): the tracked unit
when one exists, otherwise an inert unit with no span and a TODO context. -/
def GetTest (st : EngineState) (h : Nat) : Test :=
  match lookupTest st.testMap h with
  | some test => test
  | none => { t := h, ctx := some .todo, span := none, codePC := 0 }

/-- Translation of `addAutoInstrumentedTest` (testing.go, lines 319-324):
inserts the handle into the auto-instrumented set. -/
def addAutoInstrumentedTest (st : EngineState) (h : Nat) : EngineState :=
  if h ∈ st.autoInstrumented then st
  else { st with autoInstrumented := h :: st.autoInstrumented }

/-- Translation of `StartTestFromCaller` (testing.go, lines 63-139).
Cached branch: builds a minimal unit (never registered), opens a
short-lived span, tags it `test.status=CACHE`, finishes it, skips the host
test and returns the unit; the unit's `span` field is never assigned.
Non-cached branch: gets or creates the map entry (resetting its context on
re-entry), records the caller pc, applies the options, opens a new span
from the unit's context, assigns span and context into the unit, resets the
log buffer and starts a coverage bracket.  The result is the unit, the new
state and the span emitted by the cached branch (if any). -/
def StartTestFromCaller (env : Env) (st : EngineState) (h : Nat) (pc : Nat)
    (opts : List TestOption) : Test × EngineState × Option Span :=
  let c := isTestCached env st h pc
  if c.1 then
    let test0 : Test := { t := h, ctx := some .background, span := none, codePC := 0 }
    let test := applyOpts opts test0
    let fullTestName := GetOriginalTestName ((c.2.hosts h).name)
    let pName := env.pcPackage pc
    let testTags : List (String × TagValue) :=
      [ ("span.kind", .str "test"), ("test.name", .str fullTestName)
      , ("test.suite", .str pName), ("test.framework", .str "testing")
      , ("test.language", .str "go") ]
    let s := startSpan c.2 fullTestName testTags (test.ctx.getD .background)
    let sp := ((s.1.setBaggage "trace.kind" "test").setTag "test.status"
      (.str TestStatus_CACHE)).finishWith { finishTime := env.now, logRecords := [] }
    (test, skipNow s.2.2 h, some sp)
  else
    let g := getOrCreateTest c.2 h
    let test1 := if g.2.1 then { g.1 with ctx := some .background } else g.1
    let test2 := applyOpts opts { test1 with codePC := pc }
    let fullTestName := GetOriginalTestName ((g.2.2.hosts h).name)
    let pName := env.pcPackage pc
    let testCode := env.pcBoundaries pc
    let baseTags : List (String × TagValue) :=
      [ ("span.kind", .str "test"), ("test.name", .str fullTestName)
      , ("test.suite", .str pName), ("test.framework", .str "testing")
      , ("test.language", .str "go") ]
    let testTags := if testCode ≠ "" then baseTags ++ [("test.code", .str testCode)] else baseTags
    let test3 := if test2.ctx = none then { test2 with ctx := some .background } else test2
    let s := startSpan g.2.2 fullTestName testTags (test3.ctx.getD .background)
    let sp := s.1.setBaggage "trace.kind" "test"
    let test4 := { test3 with span := some sp, ctx := some s.2.1 }
    let st2 := StartCoverage { setTest s.2.2 h test4 with logBuffer := [] }
    (test4, st2, none)

/-- Translation of `StartTest` (testing.go, lines 56-60): starts from the
caller's program counter. -/
def StartTest (env : Env) (st : EngineState) (h : Nat) (pc : Nat)
    (opts : List TestOption) : Test × EngineState × Option Span :=
  StartTestFromCaller env st h pc opts

/-- Translation of `SetTestCode` (testing.go, lines 141-152). -/
def SetTestCode (env : Env) (test : Test) (pc : Nat) : Test :=
  let test2 := { test with codePC := pc }
  match test2.span with
  | none => test2
  | some sp =>
    let pName := env.pcPackage pc
    let fBoundaries := env.pcBoundaries pc
    let sp2 := sp.setTag "test.suite" (.str pName)
    let sp3 := if fBoundaries ≠ "" then sp2.setTag "test.code" (.str fBoundaries) else sp2
    { test2 with span := some sp3 }

/-- The coverage block of `end` (testing.go, lines 211-223): when the
process coverage mode is active, a unit in declared-parallel mode while
more than one top-level test is parallel-active logs a diagnostic and
restores the counters; otherwise the delta returned by `EndCoverage`
(when there is one) is set as the coverage tag. -/
def covPhase (env : Env) (test : Test) (sp : Span) (st : EngineState) :
    Span × EngineState :=
  if env.coverMode ≠ "" then
    if (st.hosts test.t).isParallel = true ∧ 1 < st.parallel then
      (sp, RestoreCoverageCounters (logDiag st
        ("CodePath in parallel test is not supported: " ++ (st.hosts test.t).name)))
    else
      match EndCoverage st with
      | (some cov, st2) => (sp.setTag tagsCoverage (.cov cov), st2)
      | (none, st2) => (sp, st2)
  else (sp, st)

/-- Translation of the private `end` (testing.go, lines 183-241), the
finalize path.  `panicVal` is what `recover()` observes: the value of the
panic unwinding through the deferred call, `none` when none is in flight
(a panic can only be observed when `end` itself is the deferred call, as
in `Run`; the public `End` always observes `none`).  The result is the new
state, the emitted (finished) span if any, and the panic left propagating
to the caller. -/
def endTest (env : Env) (test : Test) (st : EngineState)
    (panicVal : Option String) : EngineState × Option Span × Option String :=
  match test.span with
  | none => (st, none, panicVal)
  | some sp0 =>
    let finishTime := env.now
    let s1 :=
      match (st.hosts test.t).startTime with
      | some t0 => (sp0.setStart t0, st)
      | none => (sp0, logDiag st "error: test start time not found")
    let st2 := removeTest s1.2 test.t
    let logRecords := st2.logBuffer
    let finishOptions : FinishOptions := { finishTime := finishTime, logRecords := logRecords }
    let s2 := covPhase env test s1.1 st2
    match panicVal with
    | some r =>
      let sp3 := ((s2.1.setTag "test.status" (.str TestStatus_FAIL)).addEvent r).finishWith
        finishOptions
      (s2.2, some sp3, some r)
    | none =>
      let sp3 :=
        if (s2.2.hosts test.t).failed = true then
          (s2.1.setTag "test.status" (.str TestStatus_FAIL)).setTag "error" (.bool true)
        else if (s2.2.hosts test.t).skipped = true then
          s2.1.setTag "test.status" (.str TestStatus_SKIP)
        else
          s2.1.setTag "test.status" (.str TestStatus_PASS)
      (s2.2, some (sp3.finishWith finishOptions), none)

/-- Translation of the public `End` (testing.go, lines 154-162): under the
auto-instrumented read lock, finalizes the unit only when its handle is not
in the auto-instrumented set. -/
def End (env : Env) (test : Test) (st : EngineState) : EngineState × Option Span :=
  if test.t ∈ st.autoInstrumented then (st, none)
  else
    let r := endTest env test st none
    (r.1, r.2.1)

/-- The part of `Run` (testing.go, lines 175-177) that runs before the
sub-test body: marks the child handle auto-instrumented, then starts a
tracked unit for it from the parent's caller pc. -/
def runChildSetup (env : Env) (st : EngineState) (childH : Nat) (pc : Nat) :
    Test × EngineState × Option Span :=
  StartTestFromCaller env (addAutoInstrumentedTest st childH) childH pc []

/-- Translation of `Run` (testing.go, lines 169-181).  A unit with no span
degrades to the plain host sub-test invocation.  Otherwise the child handle
is marked auto-instrumented, a child unit is started, the body runs, and
the child's finalize is the deferred call that observes the body's panic
(if any).  The deferred call dereferences the same struct pointer the live
set holds, so the child unit is re-read from the live set when still
present.  `body` maps the state at body entry to the state at body exit
plus the panic it unwinds with (if any). -/
def Run (env : Env) (test : Test) (st : EngineState) (childH : Nat) (pc : Nat)
    (body : EngineState → EngineState × Option String) :
    EngineState × Option Span × Option String :=
  match test.span with
  | none =>
    let b := body st
    (b.1, none, b.2)
  | some _ =>
    let c := runChildSetup env st childH pc
    let b := body c.2.1
    let childNow := (lookupTest b.1.testMap childH).getD c.1
    endTest env childNow b.1 b.2

/-- One iteration of the sweep loop of `PanicAllRunningTests` (testing.go,
lines 311-316): drops the unit's auto-instrumented marker, forces the host
test to failed, writes the crash cause as an exception event on the unit's
span, and finalizes the unit (a plain call, so `recover` observes no
panic).  The emitted span, if any, is appended to the output. -/
def panicSweepStep (env : Env) (e : String) (acc : EngineState × List Span)
    (p : Nat × Test) : EngineState × List Span :=
  let st0 := { acc.1 with autoInstrumented := acc.1.autoInstrumented.filter (fun x => x != p.2.t) }
  let st1 := failHost st0 p.2.t
  let test := { p.2 with span := p.2.span.map (fun s => s.addEvent e) }
  let r := endTest env test st1 none
  (r.1, acc.2 ++ r.2.1.toList)

/-- Translation of `PanicAllRunningTests` (testing.go, lines 297-317):
under the auto-instrumented write lock, snapshots the live set and sweeps
every unit of the snapshot.  The skip-frames argument only shapes the
recorded stack traces and does not influence the sweep. -/
def PanicAllRunningTests (env : Env) (e : String) (skipFrames : Nat)
    (st : EngineState) : EngineState × List Span :=
  st.testMap.foldl (panicSweepStep env e) (st, [])

/-! ## Basic lemmas -/

theorem applyOption_span (o : TestOption) (test : Test) :
    (applyOption o test).span = test.span := by
  cases o; rfl

theorem applyOpts_span (opts : List TestOption) :
    ∀ test : Test, (applyOpts opts test).span = test.span := by
  induction opts with
  | nil => intro test; rfl
  | cons o rest ih =>
    intro test
    have h1 : applyOpts (o :: rest) test = applyOpts rest (applyOption o test) := rfl
    rw [h1, ih, applyOption_span]

theorem isTestCached_pos (env : Env) (st : EngineState) (h pc : Nat)
    (hc : fqnOf env pc ∈ st.cachedTests) :
    isTestCached env st h pc =
      (true, skipAndFinishTest (logDiag st ("Test " ++ fqnOf env pc ++ " is cached.")) h) := by
  unfold isTestCached
  rw [if_pos hc]

theorem isTestCached_neg (env : Env) (st : EngineState) (h pc : Nat)
    (hc : fqnOf env pc ∉ st.cachedTests) :
    isTestCached env st h pc =
      (false, logDiag st ("Test " ++ fqnOf env pc ++ " is not cached.")) := by
  unfold isTestCached
  rw [if_neg hc]

/-! ## Claim theorems: the fast-skip path and the nil-span finalize -/

/-- C9: finalizing a unit whose span is nil — such as the inert unit
`GetTest` returns for an untracked handle — is a no-op: the state is
untouched, no span is finished, and a panic in flight just keeps
propagating. -/
theorem end_nil_span_noop (env : Env) (test : Test) (st : EngineState)
    (panicVal : Option String) (h : Nat) (hspan : test.span = none) :
    endTest env test st panicVal = (st, none, panicVal) ∧
    (lookupTest st.testMap h = none →
      (GetTest st h).span = none ∧
      endTest env (GetTest st h) st panicVal = (st, none, panicVal)) := by
  have hend : ∀ test2 : Test, test2.span = none →
      endTest env test2 st panicVal = (st, none, panicVal) := by
    intro test2 h2
    unfold endTest
    rw [h2]
  refine ⟨hend test hspan, fun hl => ?_⟩
  have hg : GetTest st h = { t := h, ctx := some .todo, span := none, codePC := 0 } := by
    unfold GetTest
    rw [hl]
  exact ⟨by rw [hg], hend _ (by rw [hg])⟩

/-- Concrete environment shared by the witnesses. -/
def envW : Env :=
  { pcPackage := fun _ => "pkg", pcName := fun _ => "TestA"
    pcBoundaries := fun _ => "", coverMode := "", now := 5 }

/-- Concrete host-test table shared by the witnesses. -/
def hostsW : Nat → HostTest := fun _ =>
  { name := "TestA", failed := false, skipped := false, isParallel := false
    startTime := some 2 }

/-- Concrete empty engine state shared by the witnesses. -/
def stEmptyW : EngineState :=
  { testMap := [], autoInstrumented := [], hosts := hostsW, cachedTests := []
    covCounters := 0, covSnapshot := none, logBuffer := [], diagLog := []
    nextSpanId := 0, parallel := 0 }

/-- Witness for C9 at a concrete input. -/
theorem end_nil_span_noop_witness :
    ({ t := 9, ctx := none, span := none, codePC := 0 : Test }.span = none) ∧
    endTest envW { t := 9, ctx := none, span := none, codePC := 0 } stEmptyW
        (some "boom") =
      (stEmptyW, none, some "boom") :=
  ⟨rfl, (end_nil_span_noop envW _ stEmptyW (some "boom") 9 rfl).1⟩

/-- C1: for a test whose fully-qualified name is in the cached-tests map,
`StartTestFromCaller` never registers a unit in the live set: it leaves the
live set untouched, marks the host test skipped, emits one short-lived span
tagged `test.status=CACHE` that is already finished, and returns a unit
whose span field is nil, so no lifecycle state is retained for the handle. -/
theorem start_cached_fast_skip (env : Env) (st : EngineState) (h pc : Nat)
    (opts : List TestOption) (hc : fqnOf env pc ∈ st.cachedTests) :
    (StartTestFromCaller env st h pc opts).2.1.testMap = st.testMap ∧
    ((StartTestFromCaller env st h pc opts).2.1.hosts h).skipped = true ∧
    (∃ spe, (StartTestFromCaller env st h pc opts).2.2 = some spe ∧
      spe.lookupTag "test.status" = some (.str TestStatus_CACHE) ∧
      spe.finished = some { finishTime := env.now, logRecords := [] }) ∧
    (StartTestFromCaller env st h pc opts).1.span = none := by
  have hrw := isTestCached_pos env st h pc hc
  simp only [StartTestFromCaller, hrw]
  refine ⟨?_, ?_, ⟨_, rfl, ?_, ?_⟩, ?_⟩
  · simp [skipNow, startSpan, skipAndFinishTest, logDiag]
  · simp [skipNow, updHost, startSpan]
  · simp [Span.lookupTag, Span.setTag, Span.setBaggage, Span.finishWith, startSpan]
  · simp [Span.finishWith, Span.setTag, Span.setBaggage]
  · simp [applyOpts_span]

/-- Concrete state used by the C1 witness: "pkg.TestA" is cached. -/
def stCachedW : EngineState := { stEmptyW with cachedTests := ["pkg.TestA"] }

/-- Witness for C1 at a concrete input. -/
theorem start_cached_fast_skip_witness :
    fqnOf envW 3 ∈ stCachedW.cachedTests ∧
    ((StartTestFromCaller envW stCachedW 4 3 []).2.1.testMap = stCachedW.testMap ∧
     ((StartTestFromCaller envW stCachedW 4 3 []).2.1.hosts 4).skipped = true ∧
     (∃ spe, (StartTestFromCaller envW stCachedW 4 3 []).2.2 = some spe ∧
       spe.lookupTag "test.status" = some (.str TestStatus_CACHE) ∧
       spe.finished = some { finishTime := envW.now, logRecords := [] }) ∧
     (StartTestFromCaller envW stCachedW 4 3 []).1.span = none) :=
  ⟨by decide, start_cached_fast_skip envW stCachedW 4 3 [] (by decide)⟩

/-! ## Sub-test auto-instrumentation -/

theorem addAutoInstrumentedTest_mem (st : EngineState) (h : Nat) :
    h ∈ (addAutoInstrumentedTest st h).autoInstrumented := by
  unfold addAutoInstrumentedTest
  by_cases hm : h ∈ st.autoInstrumented
  · rw [if_pos hm]; exact hm
  · rw [if_neg hm]; exact List.mem_cons_self _ _

theorem start_preserves_auto (env : Env) (st : EngineState) (h pc : Nat)
    (opts : List TestOption) :
    (StartTestFromCaller env st h pc opts).2.1.autoInstrumented = st.autoInstrumented := by
  by_cases hc : fqnOf env pc ∈ st.cachedTests
  · simp only [StartTestFromCaller, isTestCached_pos env st h pc hc]
    simp [skipNow, startSpan, skipAndFinishTest, logDiag]
  · simp only [StartTestFromCaller, isTestCached_neg env st h pc hc]
    rcases hl : lookupTest st.testMap h with _ | t0 <;>
      simp [getOrCreateTest, logDiag, hl, setTest, StartCoverage, startSpan]

/-- C5: in `Run`, the child handle is in the auto-instrumented set already
in the state handed to the sub-test body (it is added before the start call
and the start call keeps the set unchanged), and the public `End` performs
no finalization on a unit whose handle is in the auto-instrumented set: the
private finalize is left to `Run`'s own deferred call alone, so the child
span is never status-tagged or finished twice. -/
theorem run_subtest_single_finalize (env : Env) (st : EngineState)
    (childH pc : Nat) (test : Test) (st2 : EngineState)
    (hauto : test.t ∈ st2.autoInstrumented) :
    childH ∈ (runChildSetup env st childH pc).2.1.autoInstrumented ∧
    End env test st2 = (st2, none) := by
  constructor
  · unfold runChildSetup
    rw [start_preserves_auto]
    exact addAutoInstrumentedTest_mem st childH
  · unfold End
    rw [if_pos hauto]

/-- Witness for C5 at a concrete input. -/
theorem run_subtest_single_finalize_witness :
    (6 ∈ ({ stEmptyW with autoInstrumented := [6] } : EngineState).autoInstrumented) ∧
    (6 ∈ (runChildSetup envW stEmptyW 6 3).2.1.autoInstrumented ∧
     End envW { t := 6, ctx := none, span := none, codePC := 0 }
         { stEmptyW with autoInstrumented := [6] } =
       ({ stEmptyW with autoInstrumented := [6] }, none)) :=
  ⟨by decide,
   run_subtest_single_finalize envW stEmptyW 6 3
     { t := 6, ctx := none, span := none, codePC := 0 }
     { stEmptyW with autoInstrumented := [6] } (by decide)⟩

/-! ## Finalize-path lemmas -/

theorem find?_filter_ne (k k2 : String) (hne : k2 ≠ k) :
    ∀ l : List (String × TagValue),
      (l.filter (fun p => p.1 != k)).find? (fun p => p.1 == k2) =
        l.find? (fun p => p.1 == k2)
  | [] => rfl
  | p :: rest => by
    by_cases hpk : p.1 = k
    · have hf : (p.1 != k) = false := by simp [hpk]
      have hk2 : ((fun q : String × TagValue => q.1 == k2) p) = false := by
        simp only [hpk, beq_eq_false_iff_ne, ne_eq]
        exact fun hh => hne hh.symm
      rw [List.filter_cons_of_neg (by simp [hf]), List.find?_cons_of_neg _ (by simp [hk2])]
      exact find?_filter_ne k k2 hne rest
    · have hf : (p.1 != k) = true := by simp [hpk]
      by_cases hk2 : p.1 = k2
      · have hp : ((fun q : String × TagValue => q.1 == k2) p) = true := by simp [hk2]
        rw [List.filter_cons_of_pos (by simp [hf]), List.find?_cons_of_pos _ (by simp [hp]),
          List.find?_cons_of_pos _ (by simp [hp])]
      · have hp : ((fun q : String × TagValue => q.1 == k2) p) = false := by simp [hk2]
        rw [List.filter_cons_of_pos (by simp [hf]), List.find?_cons_of_neg _ (by simp [hp]),
          List.find?_cons_of_neg _ (by simp [hp])]
        exact find?_filter_ne k k2 hne rest

theorem lookupTag_setTag_self (sp : Span) (k : String) (v : TagValue) :
    (sp.setTag k v).lookupTag k = some v := by
  unfold Span.setTag Span.lookupTag
  rw [List.find?_cons_of_pos _ (by simp)]
  rfl

theorem lookupTag_setTag_ne (sp : Span) (k k2 : String) (v : TagValue)
    (hne : k2 ≠ k) :
    (sp.setTag k v).lookupTag k2 = sp.lookupTag k2 := by
  unfold Span.setTag Span.lookupTag
  rw [List.find?_cons_of_neg _ (by
    simp only [beq_eq_false_iff_ne, ne_eq, Bool.not_eq_true]
    exact fun hh => hne hh.symm), find?_filter_ne k k2 hne]

theorem RestoreCoverageCounters_parts (st : EngineState) :
    (RestoreCoverageCounters st).testMap = st.testMap ∧
    (RestoreCoverageCounters st).hosts = st.hosts ∧
    (RestoreCoverageCounters st).autoInstrumented = st.autoInstrumented ∧
    (RestoreCoverageCounters st).logBuffer = st.logBuffer ∧
    (RestoreCoverageCounters st).diagLog = st.diagLog := by
  unfold RestoreCoverageCounters
  cases st.covSnapshot <;> exact ⟨rfl, rfl, rfl, rfl, rfl⟩

theorem EndCoverage_parts (st : EngineState) :
    (EndCoverage st).2.testMap = st.testMap ∧
    (EndCoverage st).2.hosts = st.hosts ∧
    (EndCoverage st).2.autoInstrumented = st.autoInstrumented ∧
    (EndCoverage st).2.logBuffer = st.logBuffer ∧
    (EndCoverage st).2.diagLog = st.diagLog := by
  unfold EndCoverage
  cases st.covSnapshot <;> exact ⟨rfl, rfl, rfl, rfl, rfl⟩

theorem covPhase_state_parts (env : Env) (test : Test) (sp : Span) (st : EngineState) :
    (covPhase env test sp st).2.testMap = st.testMap ∧
    (covPhase env test sp st).2.hosts = st.hosts ∧
    (covPhase env test sp st).2.autoInstrumented = st.autoInstrumented ∧
    (covPhase env test sp st).2.logBuffer = st.logBuffer := by
  unfold covPhase
  split_ifs with h1 h2
  · refine ⟨?_, ?_, ?_, ?_⟩ <;>
      simp [RestoreCoverageCounters_parts, logDiag,
        (RestoreCoverageCounters_parts _).1, (RestoreCoverageCounters_parts _).2.1,
        (RestoreCoverageCounters_parts _).2.2.1, (RestoreCoverageCounters_parts _).2.2.2.1]
  · rcases hE : EndCoverage st with ⟨oc, st2⟩
    have hparts := EndCoverage_parts st
    rw [hE] at hparts
    cases oc <;> exact ⟨hparts.1, hparts.2.1, hparts.2.2.1, hparts.2.2.2.1⟩
  · exact ⟨rfl, rfl, rfl, rfl⟩

theorem covPhase_span_parts (env : Env) (test : Test) (sp : Span) (st : EngineState) :
    (covPhase env test sp st).1.events = sp.events ∧
    (covPhase env test sp st).1.finished = sp.finished ∧
    (covPhase env test sp st).1.lookupTag "test.status" = sp.lookupTag "test.status" := by
  unfold covPhase
  split_ifs with h1 h2
  · exact ⟨rfl, rfl, rfl⟩
  · rcases hE : EndCoverage st with ⟨oc, st2⟩
    cases oc with
    | none => exact ⟨rfl, rfl, rfl⟩
    | some cov =>
      refine ⟨rfl, rfl, ?_⟩
      exact lookupTag_setTag_ne _ _ _ _ (by decide)
  · exact ⟨rfl, rfl, rfl⟩

theorem lookupTest_filter_self (m : List (Nat × Test)) (h : Nat) :
    lookupTest (m.filter (fun q => q.1 != h)) h = none := by
  unfold lookupTest
  have hn : (m.filter (fun q => q.1 != h)).find? (fun q => q.1 == h) = none := by
    rw [List.find?_eq_none]
    intro q hq
    have h2 := (List.mem_filter.mp hq).2
    simp only [bne_iff_ne, ne_eq] at h2
    simp [h2]
  rw [hn]
  rfl

theorem covPhase_testMap (env : Env) (test : Test) (sp : Span) (st : EngineState) :
    (covPhase env test sp st).2.testMap = st.testMap :=
  (covPhase_state_parts env test sp st).1

theorem covPhase_hosts (env : Env) (test : Test) (sp : Span) (st : EngineState) :
    (covPhase env test sp st).2.hosts = st.hosts :=
  (covPhase_state_parts env test sp st).2.1

theorem covPhase_auto (env : Env) (test : Test) (sp : Span) (st : EngineState) :
    (covPhase env test sp st).2.autoInstrumented = st.autoInstrumented :=
  (covPhase_state_parts env test sp st).2.2.1

theorem covPhase_logBuffer (env : Env) (test : Test) (sp : Span) (st : EngineState) :
    (covPhase env test sp st).2.logBuffer = st.logBuffer :=
  (covPhase_state_parts env test sp st).2.2.2

theorem covPhase_events (env : Env) (test : Test) (sp : Span) (st : EngineState) :
    (covPhase env test sp st).1.events = sp.events :=
  (covPhase_span_parts env test sp st).1

theorem covPhase_finished (env : Env) (test : Test) (sp : Span) (st : EngineState) :
    (covPhase env test sp st).1.finished = sp.finished :=
  (covPhase_span_parts env test sp st).2.1

theorem covPhase_statusTag (env : Env) (test : Test) (sp : Span) (st : EngineState) :
    (covPhase env test sp st).1.lookupTag "test.status" = sp.lookupTag "test.status" :=
  (covPhase_span_parts env test sp st).2.2

theorem lookupTag_panic_chain (sp1 : Span) (r : String) (fo : FinishOptions) :
    (((sp1.setTag "test.status" (.str TestStatus_FAIL)).addEvent r).finishWith fo).lookupTag
      "test.status" = some (.str TestStatus_FAIL) := by
  have h1 : (((sp1.setTag "test.status" (.str TestStatus_FAIL)).addEvent r).finishWith
      fo).lookupTag "test.status" =
      (sp1.setTag "test.status" (.str TestStatus_FAIL)).lookupTag "test.status" := rfl
  rw [h1, lookupTag_setTag_self]

/-- C6: when the finalize path runs while a panic from the test body is
unwinding, the unit is removed from the live set, the span is tagged
`test.status=FAIL`, the panic value is recorded as a structured exception
event, the span is finished with the collected finish options (finish time
and drained log records), the same panic is re-raised to the caller rather
than swallowed, and a subsequent start for the handle would create a fresh
unit. -/
theorem end_panic_path (env : Env) (test : Test) (st : EngineState) (sp : Span)
    (r : String) (hspan : test.span = some sp) :
    lookupTest (endTest env test st (some r)).1.testMap test.t = none ∧
    (∃ spe, (endTest env test st (some r)).2.1 = some spe ∧
      spe.lookupTag "test.status" = some (.str TestStatus_FAIL) ∧
      r ∈ spe.events ∧
      spe.finished = some { finishTime := env.now, logRecords := st.logBuffer }) ∧
    (endTest env test st (some r)).2.2 = some r ∧
    (getOrCreateTest (endTest env test st (some r)).1 test.t).2.1 = false := by
  have hmap : (endTest env test st (some r)).1.testMap =
      st.testMap.filter (fun q => q.1 != test.t) := by
    simp only [endTest, hspan]
    rcases hst : (st.hosts test.t).startTime with _ | t0 <;>
      simp [hst, covPhase_testMap, removeTest, logDiag]
  have hnone : lookupTest (endTest env test st (some r)).1.testMap test.t = none := by
    rw [hmap]
    exact lookupTest_filter_self _ _
  refine ⟨hnone, ?_, ?_, ?_⟩
  · simp only [endTest, hspan]
    rcases hst : (st.hosts test.t).startTime with _ | t0 <;>
      simp only [hst] <;>
      exact ⟨_, rfl, lookupTag_panic_chain _ _ _,
        by simp [Span.addEvent, Span.finishWith],
        by simp [Span.finishWith, removeTest, logDiag]⟩
  · simp only [endTest, hspan]
  · simp [getOrCreateTest, hnone]

/-- Concrete open span used by witnesses. -/
def spW : Span :=
  { sid := 0, name := "TestA", tags := [], baggage := [], events := []
    startTime := none, finished := none }

/-- Concrete tracked unit used by witnesses. -/
def testW : Test := { t := 1, ctx := some .background, span := some spW, codePC := 0 }

/-- Witness for C6 at a concrete input. -/
theorem end_panic_path_witness :
    testW.span = some spW ∧
    (lookupTest (endTest envW testW stEmptyW (some "boom")).1.testMap testW.t = none ∧
     (∃ spe, (endTest envW testW stEmptyW (some "boom")).2.1 = some spe ∧
       spe.lookupTag "test.status" = some (.str TestStatus_FAIL) ∧
       "boom" ∈ spe.events ∧
       spe.finished = some { finishTime := envW.now, logRecords := stEmptyW.logBuffer }) ∧
     (endTest envW testW stEmptyW (some "boom")).2.2 = some "boom" ∧
     (getOrCreateTest (endTest envW testW stEmptyW (some "boom")).1 testW.t).2.1 = false) :=
  ⟨rfl, end_panic_path envW testW stEmptyW spW "boom" rfl⟩

/-! ## The coverage guard -/

theorem covPhase_parallel_guard (env : Env) (test : Test) (sp : Span)
    (st : EngineState) (hcm : env.coverMode ≠ "")
    (hp : (st.hosts test.t).isParallel = true) (hn : 1 < st.parallel) :
    covPhase env test sp st =
      (sp, RestoreCoverageCounters (logDiag st
        ("CodePath in parallel test is not supported: " ++ (st.hosts test.t).name))) := by
  unfold covPhase
  rw [if_pos hcm, if_pos ⟨hp, hn⟩]

theorem covPhase_delta (env : Env) (test : Test) (sp : Span) (st : EngineState)
    (hcm : env.coverMode ≠ "")
    (hnp : ¬((st.hosts test.t).isParallel = true ∧ 1 < st.parallel))
    (snap : Int) (hsnap : st.covSnapshot = some snap) :
    covPhase env test sp st =
      (sp.setTag tagsCoverage (.cov (st.covCounters - snap)),
        { st with covSnapshot := none }) := by
  unfold covPhase
  rw [if_pos hcm, if_neg hnp]
  simp only [EndCoverage, hsnap]

theorem RestoreCoverageCounters_covCounters (st : EngineState) (snap : Int)
    (h : st.covSnapshot = some snap) :
    (RestoreCoverageCounters st).covCounters = snap := by
  unfold RestoreCoverageCounters
  rw [h]

theorem lookupTag_panic_chain_other (sp1 : Span) (r : String) (fo : FinishOptions)
    (k : String) (hk : k ≠ "test.status") :
    (((sp1.setTag "test.status" (.str TestStatus_FAIL)).addEvent r).finishWith fo).lookupTag k =
      sp1.lookupTag k := by
  have h1 : (((sp1.setTag "test.status" (.str TestStatus_FAIL)).addEvent r).finishWith
      fo).lookupTag k = (sp1.setTag "test.status" (.str TestStatus_FAIL)).lookupTag k := rfl
  rw [h1, lookupTag_setTag_ne _ _ _ _ hk]

theorem lookupTag_status_chain_other (sp1 : Span) (b1 b2 : Bool) (fo : FinishOptions)
    (k : String) (hk : k ≠ "test.status") (hk2 : k ≠ "error") :
    ((if b1 = true then
        (sp1.setTag "test.status" (.str TestStatus_FAIL)).setTag "error" (.bool true)
      else if b2 = true then sp1.setTag "test.status" (.str TestStatus_SKIP)
      else sp1.setTag "test.status" (.str TestStatus_PASS)).finishWith fo).lookupTag k =
      sp1.lookupTag k := by
  have hfin : ∀ sp2 : Span, (sp2.finishWith fo).lookupTag k = sp2.lookupTag k := fun _ => rfl
  cases b1 with
  | true =>
    rw [if_pos rfl, hfin, lookupTag_setTag_ne _ _ _ _ hk2, lookupTag_setTag_ne _ _ _ _ hk]
  | false =>
    rw [if_neg (by simp)]
    cases b2 with
    | true => rw [if_pos rfl, hfin, lookupTag_setTag_ne _ _ _ _ hk]
    | false => rw [if_neg (by simp), hfin, lookupTag_setTag_ne _ _ _ _ hk]

/-- C4: during finalize with process coverage mode active, the coverage
delta is attached only when it is safe to attribute it.  If the unit is in
the host framework's parallel mode while more than one top-level test is
parallel-active, the counters are restored to the armed snapshot, a
diagnostic is logged, and the coverage tag of the emitted span is exactly
the unit's span's previous coverage tag (none is added); otherwise, with a
bracket armed, the delta since `StartCoverage` is set as the coverage tag
of the emitted span. -/
theorem end_coverage_guard (env : Env) (test : Test) (st : EngineState)
    (sp : Span) (pv : Option String) (snap : Int) (hspan : test.span = some sp) :
    ((env.coverMode ≠ "" ∧ (st.hosts test.t).isParallel = true ∧ 1 < st.parallel ∧
        st.covSnapshot = some snap) →
      (∃ spe, (endTest env test st pv).2.1 = some spe ∧
        spe.lookupTag tagsCoverage = sp.lookupTag tagsCoverage) ∧
      (endTest env test st pv).1.covCounters = snap ∧
      ("CodePath in parallel test is not supported: " ++ (st.hosts test.t).name) ∈
        (endTest env test st pv).1.diagLog) ∧
    ((env.coverMode ≠ "" ∧ ¬((st.hosts test.t).isParallel = true ∧ 1 < st.parallel) ∧
        st.covSnapshot = some snap) →
      ∃ spe, (endTest env test st pv).2.1 = some spe ∧
        spe.lookupTag tagsCoverage = some (.cov (st.covCounters - snap))) := by
  constructor
  · rintro ⟨hcm, hp, hn, hsnap⟩
    simp only [endTest, hspan]
    rcases hst : (st.hosts test.t).startTime with _ | t0 <;>
      simp only [hst] <;>
      [rw [covPhase_parallel_guard env test sp
            (removeTest (logDiag st "error: test start time not found") test.t) hcm hp hn];
       rw [covPhase_parallel_guard env test (sp.setStart t0)
            (removeTest st test.t) hcm hp hn]] <;>
      rcases pv with _ | r <;>
      refine ⟨⟨_, rfl, ?_⟩, ?_, ?_⟩
    · rw [lookupTag_status_chain_other _ _ _ _ _ (by decide) (by decide)]
      try rfl
    · exact RestoreCoverageCounters_covCounters _ snap hsnap
    · rw [(RestoreCoverageCounters_parts _).2.2.2.2]
      exact List.mem_cons_self _ _
    · rw [lookupTag_panic_chain_other _ _ _ _ (by decide)]
      try rfl
    · exact RestoreCoverageCounters_covCounters _ snap hsnap
    · rw [(RestoreCoverageCounters_parts _).2.2.2.2]
      exact List.mem_cons_self _ _
    · rw [lookupTag_status_chain_other _ _ _ _ _ (by decide) (by decide)]
      try rfl
    · exact RestoreCoverageCounters_covCounters _ snap hsnap
    · rw [(RestoreCoverageCounters_parts _).2.2.2.2]
      exact List.mem_cons_self _ _
    · rw [lookupTag_panic_chain_other _ _ _ _ (by decide)]
      try rfl
    · exact RestoreCoverageCounters_covCounters _ snap hsnap
    · rw [(RestoreCoverageCounters_parts _).2.2.2.2]
      exact List.mem_cons_self _ _
  · rintro ⟨hcm, hnp, hsnap⟩
    simp only [endTest, hspan]
    rcases hst : (st.hosts test.t).startTime with _ | t0 <;>
      simp only [hst] <;>
      [rw [covPhase_delta env test sp
            (removeTest (logDiag st "error: test start time not found") test.t) hcm hnp snap hsnap];
       rw [covPhase_delta env test (sp.setStart t0)
            (removeTest st test.t) hcm hnp snap hsnap]] <;>
      rcases pv with _ | r <;>
      refine ⟨_, rfl, ?_⟩
    · rw [lookupTag_status_chain_other _ _ _ _ _ (by decide) (by decide),
        lookupTag_setTag_self]
      try rfl
    · rw [lookupTag_panic_chain_other _ _ _ _ (by decide), lookupTag_setTag_self]
      try rfl
    · rw [lookupTag_status_chain_other _ _ _ _ _ (by decide) (by decide),
        lookupTag_setTag_self]
      try rfl
    · rw [lookupTag_panic_chain_other _ _ _ _ (by decide), lookupTag_setTag_self]
      try rfl

/-- Concrete environment with coverage mode active, for the C4 witness. -/
def envCovW : Env :=
  { pcPackage := fun _ => "pkg", pcName := fun _ => "TestA"
    pcBoundaries := fun _ => "", coverMode := "set", now := 5 }

/-- Concrete host table with the parallel flag set, for the C4 witness. -/
def hostParW : Nat → HostTest := fun _ =>
  { name := "TestA", failed := false, skipped := false, isParallel := true
    startTime := some 2 }

/-- Concrete state with an armed coverage bracket and two parallel-active
top-level tests, for the C4 witness. -/
def stCovW : EngineState :=
  { stEmptyW with hosts := hostParW, covCounters := 9, covSnapshot := some 5, parallel := 2 }

/-- Witness for C4 at a concrete input (the unsafe-to-attribute branch). -/
theorem end_coverage_guard_witness :
    (envCovW.coverMode ≠ "" ∧ (stCovW.hosts testW.t).isParallel = true ∧
      1 < stCovW.parallel ∧ stCovW.covSnapshot = some 5) ∧
    ((∃ spe, (endTest envCovW testW stCovW none).2.1 = some spe ∧
        spe.lookupTag tagsCoverage = spW.lookupTag tagsCoverage) ∧
      (endTest envCovW testW stCovW none).1.covCounters = 5 ∧
      ("CodePath in parallel test is not supported: " ++ (stCovW.hosts testW.t).name) ∈
        (endTest envCovW testW stCovW none).1.diagLog) :=
  ⟨⟨by decide, rfl, by decide, rfl⟩,
   (end_coverage_guard envCovW testW stCovW spW none 5 rfl).1
     ⟨by decide, rfl, by decide, rfl⟩⟩

/-! ## Re-entrant start -/

/-- Concrete state with handle 1 already tracked and an open span of
identity 0, used to exhibit what a second start call does. -/
def stReentryW : EngineState :=
  { stEmptyW with testMap := [(1, testW)], nextSpanId := 1 }

/-- Counterexample for C2: on a second `StartTestFromCaller` for a handle
already in the live set (non-cached path), the unit's span field is NOT
left unchanged: the unit comes back with a span different from the
previously open one (the source comment says so as well: "If we get an old
struct we replace the current span and context with a new one"). -/
theorem start_reentry_counterexample :
    lookupTest stReentryW.testMap 1 = some testW ∧
    testW.span = some spW ∧
    (StartTestFromCaller envW stReentryW 1 3 []).1.span ≠ some spW := by decide

/-- C2 as amended: a second start call for an already-tracked handle
(non-cached path) resets the unit's ambient context, reapplies the new
options, and replaces the span as well: the unit comes back with a freshly
opened span (carrying the next span identity, hence distinct from any
previously open span), its context bound to that new span, and the live-set
entry updated to the new unit. -/
theorem start_reentry_replaces_span (env : Env) (st : EngineState) (h pc : Nat)
    (opts : List TestOption) (oldT : Test) (osp : Span)
    (hnc : fqnOf env pc ∉ st.cachedTests)
    (hlook : lookupTest st.testMap h = some oldT)
    (hold : oldT.span = some osp)
    (hsid : osp.sid ≠ st.nextSpanId) :
    (∃ spn, (StartTestFromCaller env st h pc opts).1.span = some spn ∧
      spn.sid = st.nextSpanId) ∧
    (StartTestFromCaller env st h pc opts).1.span ≠ some osp ∧
    (∃ c, (StartTestFromCaller env st h pc opts).1.ctx = some (.withSpan c st.nextSpanId)) ∧
    lookupTest (StartTestFromCaller env st h pc opts).2.1.testMap h =
      some (StartTestFromCaller env st h pc opts).1 := by
  have key : ∃ spn, (StartTestFromCaller env st h pc opts).1.span = some spn ∧
      spn.sid = st.nextSpanId ∧
      (∃ c, (StartTestFromCaller env st h pc opts).1.ctx = some (.withSpan c st.nextSpanId)) ∧
      lookupTest (StartTestFromCaller env st h pc opts).2.1.testMap h =
        some (StartTestFromCaller env st h pc opts).1 := by
    simp only [StartTestFromCaller, isTestCached_neg env st h pc hnc, getOrCreateTest,
      logDiag, hlook]
    refine ⟨_, rfl, rfl, ⟨_, rfl⟩, ?_⟩
    simp [lookupTest, setTest, StartCoverage, startSpan]
  obtain ⟨spn, h1, h2, h3, h4⟩ := key
  refine ⟨⟨spn, h1, h2⟩, ?_, h3, h4⟩
  intro heq
  rw [h1] at heq
  have hso : spn = osp := Option.some.inj heq
  exact hsid (hso ▸ h2)

/-- Witness for C2's amended statement at a concrete input. -/
theorem start_reentry_replaces_span_witness :
    (fqnOf envW 3 ∉ stReentryW.cachedTests ∧
     lookupTest stReentryW.testMap 1 = some testW ∧
     testW.span = some spW ∧ spW.sid ≠ stReentryW.nextSpanId) ∧
    ((∃ spn, (StartTestFromCaller envW stReentryW 1 3 []).1.span = some spn ∧
       spn.sid = stReentryW.nextSpanId) ∧
     (StartTestFromCaller envW stReentryW 1 3 []).1.span ≠ some spW ∧
     (∃ c, (StartTestFromCaller envW stReentryW 1 3 []).1.ctx =
       some (.withSpan c stReentryW.nextSpanId)) ∧
     lookupTest (StartTestFromCaller envW stReentryW 1 3 []).2.1.testMap 1 =
       some (StartTestFromCaller envW stReentryW 1 3 []).1) :=
  ⟨⟨by decide, by decide, rfl, by decide⟩,
   start_reentry_replaces_span envW stReentryW 1 3 [] testW spW
     (by decide) (by decide) rfl (by decide)⟩

/-! ## The panic sweep -/

theorem endTest_testMap_some (env : Env) (test : Test) (st : EngineState)
    (pv : Option String) (sp : Span) (hspan : test.span = some sp) :
    (endTest env test st pv).1.testMap =
      st.testMap.filter (fun q => q.1 != test.t) := by
  simp only [endTest, hspan]
  rcases pv with _ | r <;>
    rcases hst : (st.hosts test.t).startTime with _ | t0 <;>
    simp [hst, covPhase_testMap, removeTest, logDiag]

theorem endTest_hosts (env : Env) (test : Test) (st : EngineState)
    (pv : Option String) :
    (endTest env test st pv).1.hosts = st.hosts := by
  rcases hspan : test.span with _ | sp
  · simp [endTest, hspan]
  · simp only [endTest, hspan]
    rcases pv with _ | r <;>
      rcases hst : (st.hosts test.t).startTime with _ | t0 <;>
      simp [hst, covPhase_hosts, removeTest, logDiag]

theorem endTest_auto (env : Env) (test : Test) (st : EngineState)
    (pv : Option String) :
    (endTest env test st pv).1.autoInstrumented = st.autoInstrumented := by
  rcases hspan : test.span with _ | sp
  · simp [endTest, hspan]
  · simp only [endTest, hspan]
    rcases pv with _ | r <;>
      rcases hst : (st.hosts test.t).startTime with _ | t0 <;>
      simp [hst, covPhase_auto, removeTest, logDiag]

theorem endTest_failed_emit (env : Env) (test : Test) (st : EngineState)
    (sp : Span) (hspan : test.span = some sp)
    (hf : (st.hosts test.t).failed = true) :
    ∃ spe, (endTest env test st none).2.1 = some spe ∧
      spe.events = sp.events ∧
      spe.lookupTag "test.status" = some (.str TestStatus_FAIL) ∧
      spe.finished.isSome = true := by
  have hev : ∀ sp1 : Span, ∀ fo : FinishOptions,
      ((((sp1.setTag "test.status" (.str TestStatus_FAIL)).setTag "error"
        (.bool true)).finishWith fo)).events = sp1.events := fun _ _ => rfl
  have hlk : ∀ sp1 : Span, ∀ fo : FinishOptions,
      ((((sp1.setTag "test.status" (.str TestStatus_FAIL)).setTag "error"
        (.bool true)).finishWith fo)).lookupTag "test.status" =
        ((sp1.setTag "test.status" (.str TestStatus_FAIL)).setTag "error"
          (.bool true)).lookupTag "test.status" := fun _ _ => rfl
  simp only [endTest, hspan]
  rcases hst : (st.hosts test.t).startTime with _ | t0 <;> simp only [hst]
  · have hcond : ((covPhase env test sp
        (removeTest (logDiag st "error: test start time not found") test.t)).2.hosts
          test.t).failed = true := by
      rw [covPhase_hosts]
      exact hf
    rw [if_pos hcond]
    refine ⟨_, rfl, ?_, ?_, rfl⟩
    · rw [hev, covPhase_events]
      try rfl
    · rw [hlk, lookupTag_setTag_ne _ _ _ _ (by decide), lookupTag_setTag_self]
  · have hcond : ((covPhase env test (sp.setStart t0)
        (removeTest st test.t)).2.hosts test.t).failed = true := by
      rw [covPhase_hosts]
      exact hf
    rw [if_pos hcond]
    refine ⟨_, rfl, ?_, ?_, rfl⟩
    · rw [hev, covPhase_events]
      try rfl
    · rw [hlk, lookupTag_setTag_ne _ _ _ _ (by decide), lookupTag_setTag_self]

theorem panicSweepStep_testMap (env : Env) (e : String) (st : EngineState)
    (acc : List Span) (p : Nat × Test) (sp : Span) (hsp : p.2.span = some sp) :
    (panicSweepStep env e (st, acc) p).1.testMap =
      st.testMap.filter (fun q => q.1 != p.2.t) := by
  unfold panicSweepStep
  exact endTest_testMap_some env _ _ none (sp.addEvent e) (by simp [hsp])

theorem panicSweepStep_hosts (env : Env) (e : String) (st : EngineState)
    (acc : List Span) (p : Nat × Test) :
    (panicSweepStep env e (st, acc) p).1.hosts =
      updHost st.hosts p.2.t { st.hosts p.2.t with failed := true } := by
  unfold panicSweepStep
  rw [endTest_hosts]
  rfl

theorem panicSweepStep_auto (env : Env) (e : String) (st : EngineState)
    (acc : List Span) (p : Nat × Test) :
    (panicSweepStep env e (st, acc) p).1.autoInstrumented =
      st.autoInstrumented.filter (fun x => x != p.2.t) := by
  unfold panicSweepStep
  rw [endTest_auto]
  rfl

theorem panicSweepStep_out (env : Env) (e : String) (st : EngineState)
    (acc : List Span) (p : Nat × Test) (sp : Span) (hsp : p.2.span = some sp) :
    ∃ spe, (panicSweepStep env e (st, acc) p).2 = acc ++ [spe] ∧
      e ∈ spe.events ∧ spe.lookupTag "test.status" = some (.str TestStatus_FAIL) ∧
      spe.finished.isSome = true := by
  unfold panicSweepStep
  dsimp only
  have hfail : ((failHost { st with autoInstrumented := st.autoInstrumented.filter (fun x => x != p.2.t) } p.2.t).hosts p.2.t).failed = true := by
    simp [failHost, updHost]
  obtain ⟨spe, hemit, hev, hlk, hfin⟩ := endTest_failed_emit env
    { p.2 with span := p.2.span.map (fun s => s.addEvent e) } _ (sp.addEvent e)
    (by simp [hsp]) hfail
  refine ⟨spe, ?_, ?_, hlk, hfin⟩
  · rw [hemit]
    rfl
  · rw [hev]
    simp [Span.addEvent]

theorem sweep_testMap (env : Env) (e : String) (snap : List (Nat × Test)) :
    ∀ (st : EngineState) (acc : List Span),
      (∀ p ∈ snap, p.2.span.isSome = true) →
      (snap.foldl (panicSweepStep env e) (st, acc)).1.testMap =
        snap.foldl (fun m p => m.filter (fun q => q.1 != p.2.t)) st.testMap := by
  induction snap with
  | nil => intro st acc _; rfl
  | cons p l ih =>
    intro st acc hyp
    obtain ⟨sp, hsp⟩ := Option.isSome_iff_exists.mp (hyp p (List.mem_cons_self p l))
    have hstep := panicSweepStep_testMap env e st acc p sp hsp
    have ih2 := ih (panicSweepStep env e (st, acc) p).1
      (panicSweepStep env e (st, acc) p).2
      (fun q hq => hyp q (List.mem_cons_of_mem p hq))
    rw [List.foldl_cons, List.foldl_cons]
    calc (List.foldl (panicSweepStep env e) (panicSweepStep env e (st, acc) p) l).1.testMap
        = List.foldl (fun m p2 => m.filter (fun q => q.1 != p2.2.t))
            (panicSweepStep env e (st, acc) p).1.testMap l := ih2
      _ = List.foldl (fun m p2 => m.filter (fun q => q.1 != p2.2.t))
            (st.testMap.filter (fun q => q.1 != p.2.t)) l := by rw [hstep]

theorem removeAll_self :
    ∀ (snap m : List (Nat × Test)),
      (∀ q ∈ m, ∃ p, p ∈ snap ∧ q.1 = p.2.t) →
      snap.foldl (fun m2 p => m2.filter (fun q => q.1 != p.2.t)) m = []
  | [], m, hyp => by
    cases m with
    | nil => rfl
    | cons q l =>
      obtain ⟨p, hp, _⟩ := hyp q (List.mem_cons_self q l)
      exact absurd hp (List.not_mem_nil p)
  | p :: l, m, hyp => by
    apply removeAll_self l
    intro q hq
    have hqm := List.mem_filter.mp hq
    obtain ⟨p2, hp2, heq⟩ := hyp q hqm.1
    rcases List.mem_cons.mp hp2 with h1 | h2
    · exfalso
      have hne := hqm.2
      simp only [bne_iff_ne, ne_eq] at hne
      exact hne (by rw [heq, h1])
    · exact ⟨p2, h2, heq⟩

theorem sweep_failed_preserved (env : Env) (e : String) (snap : List (Nat × Test)) :
    ∀ (st : EngineState) (acc : List Span) (k : Nat),
      (st.hosts k).failed = true →
      (((snap.foldl (panicSweepStep env e) (st, acc)).1.hosts k).failed = true) := by
  induction snap with
  | nil => intro st acc k h; exact h
  | cons p l ih =>
    intro st acc k h
    rw [List.foldl_cons]
    apply ih (panicSweepStep env e (st, acc) p).1 (panicSweepStep env e (st, acc) p).2
    rw [panicSweepStep_hosts]
    unfold updHost
    by_cases hk : k = p.2.t
    · rw [if_pos hk]
    · rw [if_neg hk]
      exact h

theorem sweep_failed (env : Env) (e : String) (snap : List (Nat × Test)) :
    ∀ (st : EngineState) (acc : List Span),
      (∀ p ∈ snap, p.2.t = p.1) →
      ∀ p0 ∈ snap,
        (((snap.foldl (panicSweepStep env e) (st, acc)).1.hosts p0.1).failed = true) := by
  induction snap with
  | nil => intro st acc _ p0 hp0; exact absurd hp0 (List.not_mem_nil p0)
  | cons p l ih =>
    intro st acc hts p0 hp0
    rw [List.foldl_cons]
    rcases List.mem_cons.mp hp0 with h1 | h2
    · subst h1
      have hstep : ((panicSweepStep env e (st, acc) p0).1.hosts p0.1).failed = true := by
        rw [panicSweepStep_hosts]
        unfold updHost
        have ht := hts p0 (List.mem_cons_self p0 l)
        rw [if_pos ht.symm]
      exact sweep_failed_preserved env e l _ _ _ hstep
    · exact ih (panicSweepStep env e (st, acc) p).1 (panicSweepStep env e (st, acc) p).2
        (fun q hq => hts q (List.mem_cons_of_mem p hq)) p0 h2

theorem sweep_auto_preserved (env : Env) (e : String) (snap : List (Nat × Test)) :
    ∀ (st : EngineState) (acc : List Span) (k : Nat),
      k ∉ st.autoInstrumented →
      k ∉ (snap.foldl (panicSweepStep env e) (st, acc)).1.autoInstrumented := by
  induction snap with
  | nil => intro st acc k h; exact h
  | cons p l ih =>
    intro st acc k h
    rw [List.foldl_cons]
    apply ih (panicSweepStep env e (st, acc) p).1 (panicSweepStep env e (st, acc) p).2
    rw [panicSweepStep_auto]
    intro hmem
    exact h (List.mem_filter.mp hmem).1

theorem sweep_auto (env : Env) (e : String) (snap : List (Nat × Test)) :
    ∀ (st : EngineState) (acc : List Span),
      (∀ p ∈ snap, p.2.t = p.1) →
      ∀ p0 ∈ snap,
        p0.1 ∉ (snap.foldl (panicSweepStep env e) (st, acc)).1.autoInstrumented := by
  induction snap with
  | nil => intro st acc _ p0 hp0; exact absurd hp0 (List.not_mem_nil p0)
  | cons p l ih =>
    intro st acc hts p0 hp0
    rw [List.foldl_cons]
    rcases List.mem_cons.mp hp0 with h1 | h2
    · subst h1
      have hstep : p0.1 ∉ (panicSweepStep env e (st, acc) p0).1.autoInstrumented := by
        rw [panicSweepStep_auto]
        intro hmem
        have hne := (List.mem_filter.mp hmem).2
        simp only [bne_iff_ne, ne_eq] at hne
        exact hne (hts p0 (List.mem_cons_self p0 l)).symm
      exact sweep_auto_preserved env e l _ _ _ hstep
    · exact ih (panicSweepStep env e (st, acc) p).1 (panicSweepStep env e (st, acc) p).2
        (fun q hq => hts q (List.mem_cons_of_mem p hq)) p0 h2

theorem sweep_count (env : Env) (e : String) (snap : List (Nat × Test)) :
    ∀ (st : EngineState) (acc : List Span),
      (∀ p ∈ snap, p.2.span.isSome = true) →
      (snap.foldl (panicSweepStep env e) (st, acc)).2.length =
        acc.length + snap.length := by
  induction snap with
  | nil => intro st acc _; rfl
  | cons p l ih =>
    intro st acc hyp
    obtain ⟨sp, hsp⟩ := Option.isSome_iff_exists.mp (hyp p (List.mem_cons_self p l))
    obtain ⟨spe, hout, _, _, _⟩ := panicSweepStep_out env e st acc p sp hsp
    rw [List.foldl_cons]
    have ih2 := ih (panicSweepStep env e (st, acc) p).1
      (panicSweepStep env e (st, acc) p).2
      (fun q hq => hyp q (List.mem_cons_of_mem p hq))
    rw [ih2, hout]
    simp
    omega

theorem sweep_spans (env : Env) (e : String) (snap : List (Nat × Test)) :
    ∀ (st : EngineState) (acc : List Span),
      (∀ p ∈ snap, p.2.span.isSome = true) →
      (∀ s ∈ acc, e ∈ s.events ∧
        s.lookupTag "test.status" = some (.str TestStatus_FAIL) ∧
        s.finished.isSome = true) →
      ∀ s ∈ (snap.foldl (panicSweepStep env e) (st, acc)).2,
        e ∈ s.events ∧ s.lookupTag "test.status" = some (.str TestStatus_FAIL) ∧
        s.finished.isSome = true := by
  induction snap with
  | nil => intro st acc _ hacc s hs; exact hacc s hs
  | cons p l ih =>
    intro st acc hyp hacc
    obtain ⟨sp, hsp⟩ := Option.isSome_iff_exists.mp (hyp p (List.mem_cons_self p l))
    obtain ⟨spe, hout, hev, hlk, hfin⟩ := panicSweepStep_out env e st acc p sp hsp
    rw [List.foldl_cons]
    apply ih (panicSweepStep env e (st, acc) p).1 (panicSweepStep env e (st, acc) p).2
      (fun q hq => hyp q (List.mem_cons_of_mem p hq))
    rw [hout]
    intro s hs
    rcases List.mem_append.mp hs with hsl | hsr
    · exact hacc s hsl
    · rw [List.mem_singleton.mp hsr]
      exact ⟨hev, hlk, hfin⟩

/-- C7: `PanicAllRunningTests`, invoked over a consistent live set (each
entry keyed by its unit's handle, each unit holding an open span), forces
every live unit's host test to the failed state, removes every live
handle's auto-instrumented marker, finalizes every unit — emitting exactly
one finished span per unit, each tagged `test.status=FAIL` and carrying a
structured exception event for the given cause — and leaves the live set
empty (it contained exactly the snapshot the sweep took). -/
theorem panicAll_sweeps (env : Env) (e : String) (skipFrames : Nat)
    (st : EngineState)
    (hts : ∀ p ∈ st.testMap, p.2.t = p.1)
    (hsp : ∀ p ∈ st.testMap, p.2.span.isSome = true) :
    (PanicAllRunningTests env e skipFrames st).1.testMap = [] ∧
    (∀ p ∈ st.testMap,
      ((PanicAllRunningTests env e skipFrames st).1.hosts p.1).failed = true) ∧
    (∀ p ∈ st.testMap,
      p.1 ∉ (PanicAllRunningTests env e skipFrames st).1.autoInstrumented) ∧
    (PanicAllRunningTests env e skipFrames st).2.length = st.testMap.length ∧
    (∀ s ∈ (PanicAllRunningTests env e skipFrames st).2,
      e ∈ s.events ∧ s.lookupTag "test.status" = some (.str TestStatus_FAIL) ∧
      s.finished.isSome = true) := by
  unfold PanicAllRunningTests
  refine ⟨?_, ?_, ?_, ?_, ?_⟩
  · rw [sweep_testMap env e st.testMap st [] hsp]
    exact removeAll_self st.testMap st.testMap (fun q hq => ⟨q, hq, (hts q hq).symm⟩)
  · intro p hp
    exact sweep_failed env e st.testMap st [] hts p hp
  · intro p hp
    exact sweep_auto env e st.testMap st [] hts p hp
  · rw [sweep_count env e st.testMap st [] hsp]
    simp
  · exact sweep_spans env e st.testMap st [] hsp
      (fun s2 hs2 => absurd hs2 (List.not_mem_nil s2))

/-- Second concrete open span, for the two-unit C7 witness. -/
def spW2 : Span :=
  { sid := 1, name := "TestB", tags := [], baggage := [], events := []
    startTime := none, finished := none }

/-- Second concrete tracked unit, for the two-unit C7 witness. -/
def testW2 : Test := { t := 2, ctx := some .background, span := some spW2, codePC := 0 }

/-- Concrete state with two live units, for the C7 witness. -/
def stTwoW : EngineState :=
  { stEmptyW with testMap := [(1, testW), (2, testW2)], autoInstrumented := [2], nextSpanId := 2 }

/-- Witness for C7 at a concrete input: two live units. -/
theorem panicAll_sweeps_witness :
    ((∀ p ∈ stTwoW.testMap, p.2.t = p.1) ∧
     (∀ p ∈ stTwoW.testMap, p.2.span.isSome = true)) ∧
    ((PanicAllRunningTests envW "crash" 0 stTwoW).1.testMap = [] ∧
     (∀ p ∈ stTwoW.testMap,
       ((PanicAllRunningTests envW "crash" 0 stTwoW).1.hosts p.1).failed = true) ∧
     (∀ p ∈ stTwoW.testMap,
       p.1 ∉ (PanicAllRunningTests envW "crash" 0 stTwoW).1.autoInstrumented) ∧
     (PanicAllRunningTests envW "crash" 0 stTwoW).2.length = stTwoW.testMap.length ∧
     (∀ s ∈ (PanicAllRunningTests envW "crash" 0 stTwoW).2,
       "crash" ∈ s.events ∧ s.lookupTag "test.status" = some (.str TestStatus_FAIL) ∧
       s.finished.isSome = true)) :=
  ⟨⟨by decide, by decide⟩,
   panicAll_sweeps envW "crash" 0 stTwoW (by decide) (by decide)⟩

/-! ## Lock ordering

The two package-level reader/writer locks of testing.go are
`autoInstrumentedTestsMutex` (the auto lock) and `testMapMutex` (the live
lock).  Each exported operation performs a statically determined sequence
of lock operations; the traces below transcribe those sequences from the
source, and a scanner checks the two possible violations of lock ordering. -/

/-- One lock operation on one of the two locks. -/
inductive LockEvent where
  | acqAutoR
  | acqAutoW
  | relAuto
  | acqLiveR
  | acqLiveW
  | relLive
deriving DecidableEq, Repr

/-- Scan state: how many holds of each lock are outstanding (read and write
alike) and which ordering violations have been observed so far. -/
structure LockScanState where
  autoHeld : Nat
  liveHeld : Nat
  badAutoThenLive : Bool
  badLiveThenAuto : Bool
deriving DecidableEq, Repr

/-- One scan step: acquiring one lock while the other is held raises the
corresponding violation flag. -/
def lockStep (s : LockScanState) : LockEvent → LockScanState
  | .acqAutoR => { s with autoHeld := s.autoHeld + 1, badLiveThenAuto := s.badLiveThenAuto || decide (0 < s.liveHeld) }
  | .acqAutoW => { s with autoHeld := s.autoHeld + 1, badLiveThenAuto := s.badLiveThenAuto || decide (0 < s.liveHeld) }
  | .relAuto => { s with autoHeld := s.autoHeld - 1 }
  | .acqLiveR => { s with liveHeld := s.liveHeld + 1, badAutoThenLive := s.badAutoThenLive || decide (0 < s.autoHeld) }
  | .acqLiveW => { s with liveHeld := s.liveHeld + 1, badAutoThenLive := s.badAutoThenLive || decide (0 < s.autoHeld) }
  | .relLive => { s with liveHeld := s.liveHeld - 1 }

/-- Runs the scanner over a trace. -/
def lockScan (s : LockScanState) (t : List LockEvent) : LockScanState :=
  t.foldl lockStep s

/-- Initial scan state: nothing held, no violation. -/
def lockScan0 : LockScanState :=
  { autoHeld := 0, liveHeld := 0, badAutoThenLive := false, badLiveThenAuto := false }

/-- Whether the trace ever acquires the live-set lock while holding the
auto-instrumented lock. -/
def holdsAutoWhileAcquiringLive (t : List LockEvent) : Bool :=
  (lockScan lockScan0 t).badAutoThenLive

/-- Whether the trace ever acquires the auto-instrumented lock while
holding the live-set lock. -/
def holdsLiveWhileAcquiringAuto (t : List LockEvent) : Bool :=
  (lockScan lockScan0 t).badLiveThenAuto

/-- Lock trace of `getOrCreateTest` (testing.go, lines 262-264):
`testMapMutex.Lock()` with deferred unlock. -/
def getOrCreateTestLockTrace : List LockEvent := [.acqLiveW, .relLive]

/-- Lock trace of `removeTest` (testing.go, lines 277-279). -/
def removeTestLockTrace : List LockEvent := [.acqLiveW, .relLive]

/-- Lock trace of `GetTest` (testing.go, lines 284-286):
`testMapMutex.RLock()` with deferred unlock. -/
def getTestLockTrace : List LockEvent := [.acqLiveR, .relLive]

/-- Lock trace of `addAutoInstrumentedTest` (testing.go, lines 320-322). -/
def addAutoInstrumentedTestLockTrace : List LockEvent := [.acqAutoW, .relAuto]

/-- Lock trace of the private `end` (testing.go, lines 184-241): the only
lock activity is `removeTest`, and only when a span is present (the
nil-span early return touches no lock). -/
def endLockTrace (spanSome : Bool) : List LockEvent :=
  if spanSome then removeTestLockTrace else []

/-- Lock trace of the public `End` (testing.go, lines 155-162):
`autoInstrumentedTestsMutex.RLock()`, the membership check, the private
`end` when the handle is not auto-instrumented, then the deferred
`RUnlock` on return. -/
def EndLockTrace (isAuto spanSome : Bool) : List LockEvent :=
  .acqAutoR :: ((if isAuto then [] else endLockTrace spanSome) ++ [.relAuto])

/-- Lock trace of `StartTestFromCaller` (testing.go, lines 63-139): the
cached branch takes no engine lock; the non-cached branch locks only via
`getOrCreateTest`. -/
def startLockTrace (cached : Bool) : List LockEvent :=
  if cached then [] else getOrCreateTestLockTrace

/-- Lock trace of `Run` (testing.go, lines 170-181) around a body trace:
with no parent span it degrades to the body alone; otherwise
`addAutoInstrumentedTest`, the child start, the body, then the deferred
child `end` (whose unit has a span exactly when the start was not
cached). -/
def runLockTrace (parentSpanSome cached : Bool) (body : List LockEvent) :
    List LockEvent :=
  if parentSpanSome then
    addAutoInstrumentedTestLockTrace ++ (startLockTrace cached ++ (body ++ endLockTrace (!cached)))
  else body

/-- Per-unit traces of the sweep loop of `PanicAllRunningTests`
(testing.go, lines 311-316): each unit's `end` call, in order. -/
def sweepUnitsTrace : List Bool → List LockEvent
  | [] => []
  | b :: l => endLockTrace b ++ sweepUnitsTrace l

/-- Lock trace of `PanicAllRunningTests` (testing.go, lines 299-317):
`autoInstrumentedTestsMutex.Lock()`, `testMapMutex.RLock()` for the
snapshot, `testMapMutex.RUnlock()`, the per-unit `end` calls, then the
deferred auto unlock on return. -/
def panicAllLockTrace (units : List Bool) : List LockEvent :=
  [.acqAutoW, .acqLiveR, .relLive] ++ (sweepUnitsTrace units ++ [.relAuto])

theorem lockScan_append (s : LockScanState) (t1 t2 : List LockEvent) :
    lockScan s (t1 ++ t2) = lockScan (lockScan s t1) t2 := by
  simp [lockScan]

theorem lockScan_endLockTrace (s : LockScanState) (b : Bool) :
    (lockScan s (endLockTrace b)).badLiveThenAuto = s.badLiveThenAuto ∧
    (lockScan s (endLockTrace b)).autoHeld = s.autoHeld := by
  cases b <;> simp [endLockTrace, removeTestLockTrace, lockScan, lockStep]

theorem lockScan_sweepUnits :
    ∀ (units : List Bool) (s : LockScanState),
      (lockScan s (sweepUnitsTrace units)).badLiveThenAuto = s.badLiveThenAuto ∧
      (lockScan s (sweepUnitsTrace units)).autoHeld = s.autoHeld
  | [], s => ⟨rfl, rfl⟩
  | b :: l, s => by
    rw [sweepUnitsTrace, lockScan_append]
    have h1 := lockScan_endLockTrace s b
    have h2 := lockScan_sweepUnits l (lockScan s (endLockTrace b))
    exact ⟨by rw [h2.1, h1.1], by rw [h2.2, h1.2]⟩

theorem panicAll_trace_ok (units : List Bool) :
    holdsLiveWhileAcquiringAuto (panicAllLockTrace units) = false := by
  unfold holdsLiveWhileAcquiringAuto panicAllLockTrace
  rw [lockScan_append, lockScan_append]
  have h3 : ∀ s : LockScanState,
      (lockScan s [LockEvent.relAuto]).badLiveThenAuto = s.badLiveThenAuto :=
    fun s => rfl
  rw [h3, (lockScan_sweepUnits units _).1]
  rfl

theorem run_trace_ok (parentSpanSome cached : Bool) (body : List LockEvent)
    (hbody : holdsLiveWhileAcquiringAuto body = false) :
    holdsLiveWhileAcquiringAuto (runLockTrace parentSpanSome cached body) = false := by
  cases parentSpanSome with
  | false => exact hbody
  | true =>
    unfold holdsLiveWhileAcquiringAuto runLockTrace
    rw [if_pos rfl, lockScan_append, lockScan_append, lockScan_append]
    have hpre : lockScan (lockScan lockScan0 addAutoInstrumentedTestLockTrace)
        (startLockTrace cached) = lockScan0 := by
      cases cached <;> rfl
    rw [hpre, (lockScan_endLockTrace _ _).1]
    exact hbody

/-- Counterexample for C8: operations of the engine DO hold the
auto-instrumented lock while acquiring the live-set lock — the normal
finalize path (`End` on a non-auto-instrumented unit with a span, which
calls `removeTest` under the held auto read lock) and the panic sweep
(which takes the live read lock and each unit's `removeTest` write lock
under the held auto write lock) both do. -/
theorem lock_order_counterexample :
    holdsAutoWhileAcquiringLive (EndLockTrace false true) = true ∧
    holdsAutoWhileAcquiringLive (panicAllLockTrace [true]) = true := by decide

/-- C8 as amended: the consistent lock ordering of the engine is the
opposite one — no operation ever holds the live-set lock while acquiring
the auto-instrumented lock.  Every lock trace of the engine (for all branch
outcomes, any sweep snapshot, and any `Run` body that itself respects the
ordering) is free of that violation, which is what rules out a deadlock
cycle between the panic-sweep path and the normal finalize path. -/
theorem lock_order_amended (isAuto spanSome cached parentSpanSome cached2 : Bool)
    (units : List Bool) (body : List LockEvent)
    (hbody : holdsLiveWhileAcquiringAuto body = false) :
    holdsLiveWhileAcquiringAuto getOrCreateTestLockTrace = false ∧
    holdsLiveWhileAcquiringAuto removeTestLockTrace = false ∧
    holdsLiveWhileAcquiringAuto getTestLockTrace = false ∧
    holdsLiveWhileAcquiringAuto addAutoInstrumentedTestLockTrace = false ∧
    holdsLiveWhileAcquiringAuto (endLockTrace spanSome) = false ∧
    holdsLiveWhileAcquiringAuto (EndLockTrace isAuto spanSome) = false ∧
    holdsLiveWhileAcquiringAuto (startLockTrace cached) = false ∧
    holdsLiveWhileAcquiringAuto (runLockTrace parentSpanSome cached2 body) = false ∧
    holdsLiveWhileAcquiringAuto (panicAllLockTrace units) = false := by
  refine ⟨rfl, rfl, rfl, rfl, ?_, ?_, ?_, ?_, ?_⟩
  · cases spanSome <;> rfl
  · cases isAuto <;> cases spanSome <;> rfl
  · cases cached <;> rfl
  · exact run_trace_ok parentSpanSome cached2 body hbody
  · exact panicAll_trace_ok units

/-- Witness for C8's amended statement at concrete branch choices: `End` on
a non-auto unit with a span, a `Run` whose body performs one
`getOrCreateTest`, and a sweep over two units. -/
theorem lock_order_amended_witness :
    holdsLiveWhileAcquiringAuto getOrCreateTestLockTrace = false ∧
    (holdsLiveWhileAcquiringAuto getOrCreateTestLockTrace = false ∧
     holdsLiveWhileAcquiringAuto removeTestLockTrace = false ∧
     holdsLiveWhileAcquiringAuto getTestLockTrace = false ∧
     holdsLiveWhileAcquiringAuto addAutoInstrumentedTestLockTrace = false ∧
     holdsLiveWhileAcquiringAuto (endLockTrace true) = false ∧
     holdsLiveWhileAcquiringAuto (EndLockTrace false true) = false ∧
     holdsLiveWhileAcquiringAuto (startLockTrace false) = false ∧
     holdsLiveWhileAcquiringAuto (runLockTrace true false getOrCreateTestLockTrace) = false ∧
     holdsLiveWhileAcquiringAuto (panicAllLockTrace [true, false]) = false) :=
  ⟨by decide,
   lock_order_amended false true false true false [true, false]
     getOrCreateTestLockTrace (by decide)⟩
